import Mathlib

/-!
Shallow embedding of `src/main.py`, a command-line password generator.

Strings are modelled as `List Char`.  The cryptographically secure random
source (`secrets.choice`) is modelled by an oracle `pick : Nat → Nat`: the
character chosen at step `i` is `pool[pick i % pool.length]`, so every
possible run of the program corresponds to some oracle and vice versa.
Standard output and standard error are modelled as an ordered list of
events; the file append is modelled by a success/failure oracle.
-/

namespace PasswordGen

/-- `string.ascii_letters`: lowercase then uppercase, 52 characters. -/
def ascii_letters : List Char :=
  "abcdefghijklmnopqrstuvwxyzABCDEFGHIJKLMNOPQRSTUVWXYZ".toList

/-- `string.digits`: the 10 ASCII digits. -/
def digits : List Char := "0123456789".toList

/-- `string.punctuation`: the 32 ASCII punctuation characters, in CPython's
order.  Characters that are awkward as literals are given by code point:
34 is the double quote, 39 the apostrophe, 96 the backtick, 123 and 125
the curly braces. -/
def punctuation : List Char :=
  ['!', Char.ofNat 34, '#', '$', '%', '&', Char.ofNat 39, '(', ')', '*',
   '+', ',', '-', '.', '/', ':', ';', '<', '=', '>', '?', '@', '[', '\\',
   ']', '^', '_', Char.ofNat 96, Char.ofNat 123, '|', Char.ofNat 125, '~']

/-- `build_character_pool` from `src/main.py`: starts from the letters,
appends the digits when `include_numbers`, appends the punctuation when
`include_symbols`, then joins the parts. -/
def build_character_pool (include_numbers include_symbols : Bool) : List Char :=
  let pool_parts : List (List Char) := [ascii_letters]
  let pool_parts := if include_numbers then pool_parts ++ [digits] else pool_parts
  let pool_parts := if include_symbols then pool_parts ++ [punctuation] else pool_parts
  pool_parts.flatten

/-- `generate_password` from `src/main.py`.  `length` is a Python `int`,
hence `Int`; `range(length)` is empty for `length ≤ 0`, which is what
`List.range length.toNat` gives.  `secrets.choice` is modelled by the
oracle `pick`, reduced modulo the pool size. -/
def generate_password (length : Int) (include_numbers include_symbols : Bool)
    (pick : Nat → Nat) : Except String (List Char) :=
  let character_pool := build_character_pool include_numbers include_symbols
  if character_pool.isEmpty then
    Except.error "Character pool is empty"
  else
    Except.ok ((List.range length.toNat).map fun i =>
      character_pool.getD (pick i % character_pool.length) 'a')

/-- `positive_int` from `src/main.py`.  Its argument is the outcome of
Python's `int(value)`: `none` when `int` raised `ValueError`, `some i`
when it parsed to `i`.  The result is the parsed value or an
`ArgumentTypeError` message. -/
def positive_int (value : Option Int) : Except String Int :=
  match value with
  | none => Except.error "invalid int value"
  | some parsed_value =>
    if parsed_value < 1 then Except.error "length must be >= 1"
    else Except.ok parsed_value

def DEFAULT_LENGTH : Int := 12

/-- The `argparse.Namespace` produced by `parse_args`. -/
structure Namespace where
  length : Int
  numbers : Bool
  symbols : Bool
  save : Option String
deriving DecidableEq, Repr

/-- `parse_args` from `src/main.py`.  `length_arg` is `none` when
`--length` is absent (the default applies) and `some v` when it was
given, with `v` the outcome of `int` on the raw text as in
`positive_int`.  When the `type` callback raises, argparse prints a
usage message and exits the process with its usage-error code 2; this is
modelled by `Except.error 2`. -/
def parse_args (length_arg : Option (Option Int)) (numbers symbols : Bool)
    (save : Option String) : Except Nat Namespace :=
  match length_arg with
  | none => Except.ok ⟨DEFAULT_LENGTH, numbers, symbols, save⟩
  | some raw =>
    match positive_int raw with
    | Except.error _ => Except.error 2
    | Except.ok l => Except.ok ⟨l, numbers, symbols, save⟩

/-- One line written by the program: the password on standard output, or
the save-failure message on standard error. -/
inductive Event where
  | stdout_line : List Char → Event
  | stderr_line : Event
deriving DecidableEq, Repr

/-- Python truthiness of `args.save`: `None` and the empty string are
falsy. -/
def save_truthy : Option String → Bool
  | none => false
  | some p => !p.isEmpty

/-- `main` from `src/main.py`, returning the process exit code and the
ordered list of output events.  `save_result` is the oracle for
`append_password_to_file`: `false` means the append raised `OSError`.
An uncaught `ValueError` from `generate_password` would abort the
process with a traceback on standard error and exit code 1. -/
def main (length_arg : Option (Option Int)) (numbers symbols : Bool)
    (save : Option String) (pick : Nat → Nat) (save_result : Bool) :
    Nat × List Event :=
  match parse_args length_arg numbers symbols save with
  | Except.error code => (code, [])
  | Except.ok args =>
    match generate_password args.length args.numbers args.symbols pick with
    | Except.error _ => (1, [Event.stderr_line])
    | Except.ok password =>
      if save_truthy args.save then
        if save_result then (0, [Event.stdout_line password])
        else (1, [Event.stdout_line password, Event.stderr_line])
      else (0, [Event.stdout_line password])

/-! ### Helper lemmas -/

lemma pool_isEmpty_false (n s : Bool) : (build_character_pool n s).isEmpty = false := by
  cases n <;> cases s <;> decide

lemma pool_length_pos (n s : Bool) : 0 < (build_character_pool n s).length := by
  cases n <;> cases s <;> decide

lemma generate_password_eq (L : Int) (n s : Bool) (pick : Nat → Nat) :
    generate_password L n s pick =
      Except.ok ((List.range L.toNat).map fun i =>
        (build_character_pool n s).getD (pick i % (build_character_pool n s).length) 'a') := by
  unfold generate_password
  simp [pool_isEmpty_false]

lemma generate_password_length_toNat (L : Int) (n s : Bool) (pick : Nat → Nat)
    (pw : List Char) (h : generate_password L n s pick = Except.ok pw) :
    pw.length = L.toNat := by
  rw [generate_password_eq] at h
  injection h with h
  subst h
  simp

lemma generate_password_mem (L : Int) (n s : Bool) (pick : Nat → Nat)
    (pw : List Char) (h : generate_password L n s pick = Except.ok pw) :
    ∀ c ∈ pw, c ∈ build_character_pool n s := by
  rw [generate_password_eq] at h
  injection h with h
  subst h
  intro c hc
  rw [List.mem_map] at hc
  obtain ⟨i, _, rfl⟩ := hc
  rw [List.getD_eq_getElem _ _ (Nat.mod_lt _ (pool_length_pos n s))]
  exact List.getElem_mem _

lemma letters_no_digit_no_punct :
    ∀ c ∈ ascii_letters, c ∉ digits ∧ c ∉ punctuation := by
  decide

lemma generate_password_nonpos (L : Int) (hL : L ≤ 0) (n s : Bool) (pick : Nat → Nat) :
    generate_password L n s pick = Except.ok [] := by
  rw [generate_password_eq]
  have : L.toNat = 0 := Int.toNat_of_nonpos hL
  rw [this]
  rfl

/-! ### Claim theorems -/

/-- C1: for every length L ≥ 1 and every pair of flags, the string returned
by `generate_password L include_numbers include_symbols` has length
exactly L (for any behaviour of the secure random source). -/
theorem generate_password_length_exact (L : Int) (h : 1 ≤ L)
    (include_numbers include_symbols : Bool) (pick : Nat → Nat)
    (pw : List Char)
    (hpw : generate_password L include_numbers include_symbols pick = Except.ok pw) :
    (pw.length : Int) = L := by
  rw [generate_password_length_toNat L include_numbers include_symbols pick pw hpw]
  exact Int.toNat_of_nonneg (le_trans (by norm_num) h)

/-- C1 witness: at L = 5, both flags on, the oracle always picking index 0,
the password is five copies of the first pool character and has length 5. -/
theorem generate_password_length_exact_witness :
    ((List.replicate 5 'a').length : Int) = 5 :=
  generate_password_length_exact 5 (by norm_num) true true (fun _ => 0)
    (List.replicate 5 'a') rfl

/-- C2: every character of a generated password is a member of the pool
built from the same flags; in particular with both flags false the pool
is the letters, which contain no digit and no punctuation character. -/
theorem generate_password_chars_in_pool (L : Int)
    (include_numbers include_symbols : Bool) (pick : Nat → Nat)
    (pw : List Char)
    (hpw : generate_password L include_numbers include_symbols pick = Except.ok pw) :
    (∀ c ∈ pw, c ∈ build_character_pool include_numbers include_symbols) ∧
    (include_numbers = false → include_symbols = false →
      ∀ c ∈ pw, c ∉ digits ∧ c ∉ punctuation) := by
  refine ⟨generate_password_mem _ _ _ _ _ hpw, ?_⟩
  rintro rfl rfl c hc
  have hmem := generate_password_mem _ _ _ _ _ hpw c hc
  have hpool : build_character_pool false false = ascii_letters := by decide
  rw [hpool] at hmem
  exact letters_no_digit_no_punct c hmem

/-- C2 witness: at L = 4 with the identity oracle the password is the
first four pool characters; its first character is in the pool and is
neither a digit nor punctuation. -/
theorem generate_password_chars_in_pool_witness :
    'a' ∈ build_character_pool false false ∧ ('a' ∉ digits ∧ 'a' ∉ punctuation) :=
  ⟨(generate_password_chars_in_pool 4 false false (fun i => i)
      ['a', 'b', 'c', 'd'] rfl).1 'a' (by decide),
   (generate_password_chars_in_pool 4 false false (fun i => i)
      ['a', 'b', 'c', 'd'] rfl).2 rfl rfl 'a' (by decide)⟩

/-- C3 counterexample: at length 0 < 1, `generate_password` does not fail
with an input error: it returns the empty password. -/
theorem generate_password_zero_ok :
    generate_password 0 false false (fun _ => 0) = Except.ok [] := by
  rfl

/-- C3 amended: for every length L < 1, `generate_password` raises no
error and returns the empty string; a length below 1 is rejected only by
the CLI validator `positive_int`, not by `generate_password`. -/
theorem generate_password_low_length (L : Int) (h : L < 1)
    (include_numbers include_symbols : Bool) (pick : Nat → Nat) :
    generate_password L include_numbers include_symbols pick = Except.ok [] ∧
    positive_int (some L) = Except.error "length must be >= 1" := by
  constructor
  · exact generate_password_nonpos L (by omega) include_numbers include_symbols pick
  · simp [positive_int, h]

/-- C3 amended witness at L = -3. -/
theorem generate_password_low_length_witness :
    generate_password (-3) true false (fun _ => 0) = Except.ok [] ∧
    positive_int (some (-3)) = Except.error "length must be >= 1" :=
  generate_password_low_length (-3) (by norm_num) true false (fun _ => 0)

/-- C4: the pool is the letters, then the digits exactly when
`include_numbers`, then the fixed punctuation set exactly when
`include_symbols`; the letters number 52, the digits 10. -/
theorem build_character_pool_concat :
    (∀ include_numbers include_symbols : Bool,
      build_character_pool include_numbers include_symbols =
        ascii_letters ++ (if include_numbers then digits else []) ++
          (if include_symbols then punctuation else [])) ∧
    ascii_letters.length = 52 ∧ digits.length = 10 := by
  refine ⟨?_, by decide, by decide⟩
  intro n s
  cases n <;> cases s <;> decide

/-- C5: the character pool is never empty, whatever the flags. -/
theorem build_character_pool_nonempty :
    ∀ include_numbers include_symbols : Bool,
      0 < (build_character_pool include_numbers include_symbols).length := by
  decide

/-- C7: enabling either flag strictly enlarges the set of pool characters
(the other flag held fixed), and with both flags off the pool is exactly
the letters. -/
theorem build_character_pool_strict_mono :
    (∀ s : Bool, (∀ c ∈ build_character_pool false s, c ∈ build_character_pool true s) ∧
      ∃ c, c ∈ build_character_pool true s ∧ c ∉ build_character_pool false s) ∧
    (∀ n : Bool, (∀ c ∈ build_character_pool n false, c ∈ build_character_pool n true) ∧
      ∃ c, c ∈ build_character_pool n true ∧ c ∉ build_character_pool n false) ∧
    build_character_pool false false = ascii_letters := by
  refine ⟨?_, ?_, by decide⟩ <;> decide

/-- C7 witness: the monotonicity part applied to the concrete character
'a' with the symbols flag off. -/
theorem build_character_pool_strict_mono_witness :
    'a' ∈ build_character_pool true false :=
  (build_character_pool_strict_mono.1 false).1 'a' (by decide)

/-- C9: the defensive empty-pool branch of `generate_password` is dead
code: the pool is never empty, so the result is always `Except.ok`. -/
theorem empty_pool_branch_unreachable (L : Int)
    (include_numbers include_symbols : Bool) (pick : Nat → Nat) :
    (generate_password L include_numbers include_symbols pick).isOk = true ∧
    (build_character_pool include_numbers include_symbols).isEmpty = false := by
  refine ⟨?_, pool_isEmpty_false _ _⟩
  rw [generate_password_eq]
  rfl

/-- C10: for every length L ≤ 0, `generate_password` returns the empty
string without any error. -/
theorem generate_password_nonpos_empty (L : Int) (h : L ≤ 0)
    (include_numbers include_symbols : Bool) (pick : Nat → Nat) :
    generate_password L include_numbers include_symbols pick = Except.ok [] :=
  generate_password_nonpos L h include_numbers include_symbols pick

/-- C10 witness at L = 0 and at the most permissive flags. -/
theorem generate_password_nonpos_empty_witness :
    generate_password 0 true true (fun _ => 7) = Except.ok [] :=
  generate_password_nonpos_empty 0 (by norm_num) true true (fun _ => 7)

/-- C6: a `--length` argument that does not parse as an integer or parses
below 1 makes `positive_int` raise, `parse_args` exit with the argparse
usage-error code 2, and `main` end with exit code 2 having produced no
output at all — in particular no password was generated or printed. -/
theorem invalid_length_rejected (raw : Option Int)
    (h : raw = none ∨ ∃ i, raw = some i ∧ i < 1)
    (numbers symbols : Bool) (save : Option String)
    (pick : Nat → Nat) (save_result : Bool) :
    (∃ msg, positive_int raw = Except.error msg) ∧
    parse_args (some raw) numbers symbols save = Except.error 2 ∧
    main (some raw) numbers symbols save pick save_result = (2, []) := by
  have herr : ∃ msg, positive_int raw = Except.error msg := by
    rcases h with rfl | ⟨i, rfl, hi⟩
    · exact ⟨"invalid int value", rfl⟩
    · exact ⟨"length must be >= 1", by simp [positive_int, hi]⟩
  obtain ⟨msg, hmsg⟩ := herr
  have hparse : parse_args (some raw) numbers symbols save = Except.error 2 := by
    simp [parse_args, hmsg]
  refine ⟨⟨msg, hmsg⟩, hparse, ?_⟩
  simp [main, hparse]

/-- C6 witness: a length of 0 is rejected with exit code 2 and no output. -/
theorem invalid_length_rejected_witness :
    main (some (some 0)) false false none (fun i => i) true = (2, []) :=
  (invalid_length_rejected (some 0) (Or.inr ⟨0, rfl, by norm_num⟩)
    false false none (fun i => i) true).2.2

/-- C8: once arguments parse, the password is generated and printed.  With
no save requested (or a falsy path) the exit code is 0 whatever the file
system would do; with a save requested, a successful append exits 0, and
an `OSError` during the append exits 1 with the password already on
standard output before the error line on standard error. -/
theorem main_exit_and_output (length_arg : Option (Option Int))
    (numbers symbols : Bool) (save : Option String) (pick : Nat → Nat)
    (args : Namespace) (pw : List Char)
    (hargs : parse_args length_arg numbers symbols save = Except.ok args)
    (hpw : generate_password args.length args.numbers args.symbols pick = Except.ok pw) :
    (save_truthy args.save = false → ∀ save_result : Bool,
      main length_arg numbers symbols save pick save_result =
        (0, [Event.stdout_line pw])) ∧
    (save_truthy args.save = true →
      main length_arg numbers symbols save pick true = (0, [Event.stdout_line pw]) ∧
      main length_arg numbers symbols save pick false =
        (1, [Event.stdout_line pw, Event.stderr_line])) := by
  constructor
  · intro hsave save_result
    simp [main, hargs, hpw, hsave]
  · intro hsave
    constructor <;> simp [main, hargs, hpw, hsave]

/-- C8 witness: default length 12, the constant-0 oracle, saving to "p";
when the append fails the run exits 1 with the password line preceding
the error line, and when it succeeds the run exits 0. -/
theorem main_exit_and_output_witness :
    main none false false (some "p") (fun _ => 0) false =
      (1, [Event.stdout_line (List.replicate 12 'a'), Event.stderr_line]) ∧
    main none false false (some "p") (fun _ => 0) true =
      (0, [Event.stdout_line (List.replicate 12 'a')]) := by
  have h := main_exit_and_output none false false (some "p") (fun _ => 0)
    ⟨12, false, false, some "p"⟩ (List.replicate 12 'a') rfl rfl
  exact ⟨(h.2 rfl).2, (h.2 rfl).1⟩

end PasswordGen
